import Mathlib

/-!
# Verification of the neo4j-context-bridge extraction / search / injection core

Shallow embedding, in Lean 4, of the algorithmic core of the
`neo4j-context-bridge` TypeScript repository:

* `src/extractors/context-extractor.ts` (`ContextExtractor`): pattern
  classifiers, importance scoring, summarization, in-extractor relationship
  detection, and the `extractFromChat` pipeline;
* `src/extractors/relationship-detector.ts` (`RelationshipDetector`): the
  stand-alone relationship detector (notably its `setOverlap` test);
* `src/search/semantic-search.ts` (`SemanticSearch`): the hybrid search
  dispatch with its keyword-path fallback;
* `src/injection/context-injector.ts` (`ContextInjector`): the token-budgeted
  selection of contexts for injection;
* `src/tools/extraction-tools.ts`: the `extract_context` handler's capping of
  the extraction result.

Modelling conventions:

* JavaScript numbers used as scores are modelled by `ℚ` (the score
  arithmetic in scope is small sums and comparisons of decimal constants);
  token counts and limits are `ℕ`; timestamps (ISO strings in the source,
  always consumed through `new Date(ts).getTime()`) are modelled by their
  epoch-millisecond value as `Int`.
* External effects (the tiktoken encoder, the `marked` markdown lexer, the
  regular-expression engine, Neo4j sessions, the embedding model, wall-clock
  time and random id generation) are modelled as explicit inputs: functions
  and lists supplied to the embedded definitions.  Each such parameter is
  documented at its use site.
* `tiktoken`'s `encode` is modelled by the source's own in-function fallback
  `Math.ceil(text.length / 4)` (`countTokens` catches any encoder failure and
  uses that estimate); the injector's `estimateTokens` is literally
  `Math.ceil(text.length / 4)`.
-/

namespace ContextBridge

/-! ## Data model (`src/types/neo4j-types.ts`) -/

/-- `ContextType` enum from `src/types/neo4j-types.ts`. -/
inductive ContextType
  | code
  | decision
  | requirement
  | discussion
  | error
deriving DecidableEq

/-- `RelationshipType` enum from `src/types/neo4j-types.ts`. -/
inductive RelationshipType
  | references
  | evolvesTo
  | dependsOn
  | relatedTo
  | implements
  | belongsTo
deriving DecidableEq

/-- `ContextNode` from `src/types/neo4j-types.ts`.  The open `metadata` bag
and the optional `embedding` vector are omitted: no definition embedded in
this file reads them.  `timestamp` is the epoch-millisecond value of the ISO
string. -/
structure ContextNode where
  id : String
  chatId : String
  projectId : String
  content : String
  summary : Option String := none
  contextType : ContextType
  importanceScore : ℚ
  timestamp : Int
  tokenCount : Nat
  isSummarized : Bool := false
deriving DecidableEq

/-- `Relationship` from `src/types/neo4j-types.ts`.  The open `properties`
bag is modelled by its two keys actually written by the code in scope:
`similarity` (on RELATED_TO edges) and `timeDelta` (on EVOLVES_TO edges). -/
structure Relationship where
  fromId : String
  toId : String
  type : RelationshipType
  similarity : Option ℚ := none
  timeDelta : Option Int := none
deriving DecidableEq

/-- `SearchResult` from `src/types/neo4j-types.ts` (the optional
`highlights` array is omitted: the injector never reads it). -/
structure SearchResult where
  context : ContextNode
  score : ℚ
  chatTitle : String
deriving DecidableEq

/-! ## String helpers shared by the embedded code

These model the elementary JavaScript string operations the source relies
on: `\s` whitespace, `indexOf` / `includes`, splitting on whitespace runs. -/

/-- JavaScript `\s` whitespace for the ASCII range (space, tab, LF, VT, FF,
CR), which is all the embedded code ever produces. -/
def jsIsSpace (c : Char) : Bool :=
  c = ' ' || c = '\t' || c = '\n' || c = Char.ofNat 11 || c = Char.ofNat 12 || c = '\r'

/-- `b` starts with `a` (on character lists). -/
def leadsWith : List Char → List Char → Bool
  | [], _ => true
  | _ :: _, [] => false
  | a :: as, b :: bs => a = b && leadsWith as bs

/-- Index of the first occurrence of `needle` in the remaining haystack,
counting from `i`; `-1` when absent.  Models JavaScript `indexOf`. -/
def indexOfFrom (needle : List Char) : List Char → Nat → Int
  | [], i => if needle = [] then (i : Int) else -1
  | c :: rest, i =>
    if leadsWith needle (c :: rest) then (i : Int) else indexOfFrom needle rest (i + 1)

/-- JavaScript `hay.indexOf(needle)`. -/
def jsIndexOf (hay needle : String) : Int :=
  indexOfFrom needle.toList hay.toList 0

/-- JavaScript `hay.includes(needle)`. -/
def jsIncludes (hay needle : String) : Bool :=
  jsIndexOf hay needle ≠ -1

/-- Splitting on runs of whitespace (accumulator = current word, reversed).
JavaScript `split(/\s+/)` additionally yields one leading `""` element when
the input starts with whitespace; every consumer in scope filters words by a
length bound `> 3`, under which the two behaviours agree. -/
def splitWsAux : List Char → List Char → List String
  | [], acc => if acc.isEmpty then [] else [String.mk acc.reverse]
  | c :: cs, acc =>
    if jsIsSpace c then
      if acc.isEmpty then splitWsAux cs []
      else String.mk acc.reverse :: splitWsAux cs []
    else splitWsAux cs (c :: acc)

/-- Words of a string (split on whitespace runs). -/
def wordsOf (s : String) : List String :=
  splitWsAux s.toList []

/-- JavaScript `toLowerCase()` (character-wise; all embedded inputs are
ASCII, where JavaScript and `Char.toLower` agree). -/
def jsToLower (s : String) : String :=
  String.mk (s.toList.map Char.toLower)

/-- JavaScript `trim()`: strip whitespace from both ends. -/
def jsTrim (s : String) : String :=
  String.mk
    (((s.toList.dropWhile fun c => jsIsSpace c).reverse.dropWhile
      fun c => jsIsSpace c).reverse)

/-- JavaScript `split('\n')` (plain separator, empties kept). -/
def splitLinesAux : List Char → List Char → List String
  | [], acc => [String.mk acc.reverse]
  | c :: cs, acc =>
    if c = '\n' then String.mk acc.reverse :: splitLinesAux cs []
    else splitLinesAux cs (c :: acc)

/-- JavaScript `content.split('\n')`. -/
def jsSplitNewline (s : String) : List String :=
  splitLinesAux s.toList []

/-- JavaScript `lines.join('\n')`. -/
def joinLines : List String → String
  | [] => ""
  | [l] => l
  | l :: ls => l ++ "\n" ++ joinLines ls

/-! ## `ContextExtractor` (`src/extractors/context-extractor.ts`) -/

/-- `countTokens`: the extractor counts tokens with tiktoken and falls back
to `Math.ceil(text.length / 4)` when the encoder throws; the external BPE
encoder is modelled by that in-source estimate. -/
def countTokens (text : String) : Nat :=
  (text.length + 3) / 4

/-- `[^a-z0-9\s]` replaced by a space (applied after `toLowerCase`). -/
def keepAlnum (c : Char) : Char :=
  if c.isLower || c.isDigit || jsIsSpace c then c else ' '

/-- `ContextExtractor.extractKeywords`: lower-case, strip non-alphanumerics,
split on whitespace, keep words longer than 3 characters.  The JavaScript
`Set` is modelled by deduplication. -/
def extractKeywords (text : String) : List String :=
  ((wordsOf (String.mk ((jsToLower text).toList.map keepAlnum))).filter
    (fun word => word.length > 3)).dedup

/-- `ContextExtractor.hasCommonKeywords`: at least 3 words of `set1` occur
in `set2`. -/
def hasCommonKeywords (set1 set2 : List String) : Bool :=
  3 ≤ (set1.filter (fun word => set2.contains word)).length

/-- `ContextExtractor.areNearby`: both contents occur in the transcript and
their first occurrences are less than 1000 characters apart. -/
def areNearby (ctx1 ctx2 : ContextNode) (fullContent : String) : Bool :=
  let pos1 := jsIndexOf fullContent ctx1.content
  let pos2 := jsIndexOf fullContent ctx2.content
  if pos1 = -1 || pos2 = -1 then false
  else (pos1 - pos2).natAbs < 1000

/-- `ContextExtractor.calculateSimilarity`: Jaccard similarity of the two
keyword sets.  When both are empty, JavaScript produces `0/0 = NaN`, for
which every comparison is false; `ℚ` division gives `0`, for which the one
comparison made (`> 0.7`) is equally false. -/
def calculateSimilarity (text1 text2 : String) : ℚ :=
  let words1 := extractKeywords text1
  let words2 := extractKeywords text2
  let inter := (words1.filter (fun x => words2.contains x)).length
  let union := (words1 ++ words2).dedup.length
  (inter : ℚ) / (union : ℚ)

/-- `keywordBoosts` table of `ContextExtractor.scoreContext`. -/
def keywordBoosts : List (String × ℚ) :=
  [("critical", 0.1), ("important", 0.08), ("security", 0.1),
   ("performance", 0.07), ("architecture", 0.08), ("breaking change", 0.1),
   ("TODO", 0.06), ("FIXME", 0.08)]

/-- `ContextExtractor.scoreContext`: type bonus, two size bonuses, additive
keyword bonuses, clamp at 1.0. -/
def scoreContext (context : ContextNode) : ContextNode :=
  let score := context.importanceScore
  let score := if context.contextType = ContextType.error then score + 0.1
    else if context.contextType = ContextType.requirement then score + 0.05
    else score
  let score := if context.tokenCount > 100 then score + 0.05 else score
  let score := if context.tokenCount > 500 then score + 0.05 else score
  let score := keywordBoosts.foldl
    (fun s kb => if jsIncludes (jsToLower context.content) (jsToLower kb.1) then s + kb.2 else s)
    score
  { context with importanceScore := min score 1 }

/-- `ContextExtractor.summarizeIfNeeded`: when `tokenCount` exceeds the
configured ceiling, the summary is the first 10 lines plus a
`"... (N more lines, T total tokens)"` marker; `N` is the JavaScript number
`lines.length - 10`, which is negative for short-line contents, hence `Int`
subtraction rendered by `toString`. -/
def summarizeIfNeeded (maxContextTokens : Nat) (context : ContextNode) : ContextNode :=
  if context.tokenCount ≤ maxContextTokens then context
  else
    let lines := jsSplitNewline context.content
    let summary := joinLines (lines.take 10) ++
      "\n\n... (" ++ toString ((lines.length : Int) - 10) ++ " more lines, " ++
      toString context.tokenCount ++ " total tokens)"
    { context with summary := some summary, isSummarized := true }

/-- Relationships produced for one ordered pair by the body of the double
loop of `ContextExtractor.detectRelationships` (requirement/code →
IMPLEMENTS, error/code nearby → REFERENCES, same type similar →
RELATED_TO). -/
def pairRels (ctx1 ctx2 : ContextNode) (fullContent : String) : List Relationship :=
  (if ctx1.contextType = ContextType.requirement ∧ ctx2.contextType = ContextType.code then
    let codeKeywords := extractKeywords ctx2.content
    let reqKeywords := extractKeywords ctx1.content
    if hasCommonKeywords codeKeywords reqKeywords then
      [{ fromId := ctx2.id, toId := ctx1.id, type := RelationshipType.implements }]
    else []
  else []) ++
  (if ctx1.contextType = ContextType.error ∧ ctx2.contextType = ContextType.code then
    if areNearby ctx1 ctx2 fullContent then
      [{ fromId := ctx1.id, toId := ctx2.id, type := RelationshipType.references }]
    else []
  else []) ++
  (if ctx1.contextType = ctx2.contextType then
    let similarity := calculateSimilarity ctx1.content ctx2.content
    if similarity > 0.7 then
      [{ fromId := ctx1.id, toId := ctx2.id, type := RelationshipType.relatedTo,
         similarity := some similarity }]
    else []
  else [])

/-- The ordered pairs `(contexts[i], contexts[j])` with `i < j`, in loop
order. -/
def offDiagPairs : List ContextNode → List (ContextNode × ContextNode)
  | [] => []
  | c :: rest => rest.map (fun d => (c, d)) ++ offDiagPairs rest

/-- `ContextExtractor.detectRelationships` (the method `extractFromChat`
actually invokes). -/
def detectRelationships (contexts : List ContextNode) (fullContent : String) :
    List Relationship :=
  (offDiagPairs contexts).flatMap (fun p => pairRels p.1 p.2 fullContent)

/-- Result shape of `ContextExtractor.extractFromChat` (`extractionTime`,
pure wall-clock observability, is omitted). -/
structure ContextExtractionResult where
  contexts : List ContextNode
  relationships : List Relationship
  totalTokens : Nat
deriving DecidableEq

/-- `ContextExtractor.extractFromChat`: the five pattern classifiers are
external text scanners (markdown lexer plus regular-expression engine);
their candidate lists are supplied as the inputs `codeContexts`,
`decisions`, `requirements`, `errors`, `discussions` (the per-classifier
match processing is embedded separately below).  The pipeline itself —
concatenate in classifier order, score, summarize, detect relationships on
the processed items, sum token counts — is embedded literally. -/
def extractFromChat (maxContextTokens : Nat)
    (codeContexts decisions requirements errors discussions : List ContextNode)
    (content : String) : ContextExtractionResult :=
  let contexts := codeContexts ++ decisions ++ requirements ++ errors ++ discussions
  let scoredContexts := contexts.map scoreContext
  let summarizedContexts := scoredContexts.map (summarizeIfNeeded maxContextTokens)
  let relationships := detectRelationships summarizedContexts content
  let totalTokens := summarizedContexts.foldl (fun sum ctx => sum + ctx.tokenCount) 0
  { contexts := summarizedContexts
    relationships := relationships
    totalTokens := totalTokens }

/-- The `extract_context` tool handler of `src/tools/extraction-tools.ts`
caps the extraction result with `extractionResult.contexts.slice(0,
maxContexts)`. -/
def extractContextHandler (maxContextTokens maxContexts : Nat)
    (codeContexts decisions requirements errors discussions : List ContextNode)
    (content : String) : List ContextNode :=
  (extractFromChat maxContextTokens codeContexts decisions requirements errors
    discussions content).contexts.take maxContexts

/-! ## Pattern classifiers (`ContextExtractor.extractDecisions`,
`extractRequirements`, `extractErrors`)

The regular-expression engine is external: each classifier iterates over
`content.matchAll(pattern)` for its patterns in order.  The embedded loops
below take the concatenated match streams as input (one `RegexMatch` per
iteration of the inner loop, `fullMatch` = `match[0]`, `capture` =
`match[1]`) and embed, verbatim, the per-match processing: trimming, the
length filter, the shared dedup `Set`, and the construction of the stored
`ContextNode`.  Wall-clock timestamps and random ids (`generateContextId`)
are supplied as the inputs `now` and `genId`. -/

/-- One regular-expression match: `match[0]` and the optional first capture
group `match[1]`. -/
structure RegexMatch where
  fullMatch : String
  capture : Option String
deriving DecidableEq

/-- `const decision = match[1] ? match[1].trim() : fullMatch` (JavaScript
truthiness: an empty capture falls back to the trimmed full match). -/
def capturedSpan (m : RegexMatch) : String :=
  match m.capture with
  | some c => if c = "" then jsTrim m.fullMatch else jsTrim c
  | none => jsTrim m.fullMatch

/-- Inner loop of `ContextExtractor.extractDecisions`: accept when the
captured span has length strictly between 20 and 500 and is unseen; the
stored `content` is the trimmed full match; `importanceScore` starts at
0.8. -/
def extractDecisionsLoop (chatId projectId : String) (genId : Nat → String)
    (now : Int) : List RegexMatch → List String → Nat → List ContextNode
  | [], _, _ => []
  | m :: rest, seen, idx =>
    if (capturedSpan m).length > 20 ∧ (capturedSpan m).length < 500 ∧
        ¬ seen.contains (capturedSpan m) then
      { id := genId idx, chatId := chatId, projectId := projectId,
        content := jsTrim m.fullMatch, contextType := ContextType.decision,
        importanceScore := 0.8, timestamp := now,
        tokenCount := countTokens (jsTrim m.fullMatch), isSummarized := false } ::
        extractDecisionsLoop chatId projectId genId now rest
          (capturedSpan m :: seen) (idx + 1)
    else extractDecisionsLoop chatId projectId genId now rest seen idx

/-- Inner loop of `ContextExtractor.extractRequirements`: identical filter
to decisions (span length strictly between 20 and 500, dedup on the span);
`importanceScore` starts at 0.85. -/
def extractRequirementsLoop (chatId projectId : String) (genId : Nat → String)
    (now : Int) : List RegexMatch → List String → Nat → List ContextNode
  | [], _, _ => []
  | m :: rest, seen, idx =>
    if (capturedSpan m).length > 20 ∧ (capturedSpan m).length < 500 ∧
        ¬ seen.contains (capturedSpan m) then
      { id := genId idx, chatId := chatId, projectId := projectId,
        content := jsTrim m.fullMatch, contextType := ContextType.requirement,
        importanceScore := 0.85, timestamp := now,
        tokenCount := countTokens (jsTrim m.fullMatch), isSummarized := false } ::
        extractRequirementsLoop chatId projectId genId now rest
          (capturedSpan m :: seen) (idx + 1)
    else extractRequirementsLoop chatId projectId genId now rest seen idx

/-- Inner loop of `ContextExtractor.extractErrors`: the filter runs on the
trimmed full match itself (length strictly between 30 and 1000, dedup on
it); `importanceScore` starts at 0.9. -/
def extractErrorsLoop (chatId projectId : String) (genId : Nat → String)
    (now : Int) : List RegexMatch → List String → Nat → List ContextNode
  | [], _, _ => []
  | m :: rest, seen, idx =>
    if (jsTrim m.fullMatch).length > 30 ∧ (jsTrim m.fullMatch).length < 1000 ∧
        ¬ seen.contains (jsTrim m.fullMatch) then
      { id := genId idx, chatId := chatId, projectId := projectId,
        content := jsTrim m.fullMatch, contextType := ContextType.error,
        importanceScore := 0.9, timestamp := now,
        tokenCount := countTokens (jsTrim m.fullMatch), isSummarized := false } ::
        extractErrorsLoop chatId projectId genId now rest
          (jsTrim m.fullMatch :: seen) (idx + 1)
    else extractErrorsLoop chatId projectId genId now rest seen idx

/-- Alternatives of the second decision pattern
`/(?:The plan is|We'll|Let's|I'll|We should|I recommend)\s+([^.!?]+[.!?])/gi`
of `ContextExtractor.extractDecisions` (apostrophes written as `\x27`). -/
def decisionTriggers2 : List String :=
  ["The plan is", "We\x27ll", "Let\x27s", "I\x27ll", "We should", "I recommend"]

/-- `s` is a nonempty run of JavaScript whitespace (`\s+`). -/
def IsJsWhitespaceRun (s : String) : Prop :=
  s ≠ "" ∧ ∀ c ∈ s.toList, jsIsSpace c = true

/-- Declarative semantics of one match of the second decision pattern
`/(?:The plan is|We'll|Let's|I'll|We should|I recommend)\s+([^.!?]+[.!?])/gi`:
the full match is a trigger alternative, a nonempty whitespace run, and the
capture; the capture is a nonempty run of characters outside `.!?` followed
by one of `.`, `!`, `?`. -/
def ValidDecisionPattern2Match (m : RegexMatch) : Prop :=
  ∃ trigger sep body p, trigger ∈ decisionTriggers2 ∧
    IsJsWhitespaceRun sep ∧
    body ≠ "" ∧ (∀ c ∈ body.toList, c ≠ '.' ∧ c ≠ '!' ∧ c ≠ '?') ∧
    (p = "." ∨ p = "!" ∨ p = "?") ∧
    m.fullMatch = trigger ++ sep ++ body ++ p ∧
    m.capture = some (body ++ p)

/-! ## `RelationshipDetector` (`src/extractors/relationship-detector.ts`)

`extract_context` constructs a `RelationshipDetector` but never calls it:
the relationships stored by the tool are exactly
`extractFromChat(...).relationships`.  The detector's code-evolution
similarity test is embedded here so the Evolution-family behaviour can be
stated against it. -/

/-- `RelationshipDetector.setOverlap`: overlap count over the smaller set
size; 0 when either set is empty.  The JavaScript `Set`s are modelled as
duplicate-free lists. -/
def setOverlap (set1 set2 : List String) : ℚ :=
  if set1.length = 0 ∨ set2.length = 0 then 0
  else ((set1.filter (fun x => set2.contains x)).length : ℚ) /
    ((min set1.length set2.length : Nat) : ℚ)

/-- `RelationshipDetector.isEvolution` for two code items, with the
function-name extraction (five regular-expression scanners) supplied as the
input `functionNames`: function-name-set overlap strictly above 0.5. -/
def isCodeEvolution (functionNames : String → List String)
    (current next : ContextNode) : Prop :=
  setOverlap (functionNames current.content) (functionNames next.content) > 0.5

/-! ## `SemanticSearch` (`src/search/semantic-search.ts`)

External effects are supplied as inputs: `embedQuery` is the outcome of
`embeddings.generateEmbedding(query)`; `hasVectorIndex` is
`checkVectorIndexExists` (which catches its own errors and returns `false`);
`vectorQuery` is the Neo4j vector-index query on the query embedding (any
`withNeo4j` connection failure is one of its error outcomes); `keyword` is
the `keywordSearch` method as a function of its four arguments.  Thrown
exceptions are modelled by `Except String`. -/

/-- `SemanticSearch.semanticSearch`: embed the query; without a vector
index fall back to the keyword path; on any thrown error (embedding or
vector retrieval) catch and fall back to the keyword path with the same
arguments. -/
def semanticSearch (embedQuery : Except String (List ℚ)) (hasVectorIndex : Bool)
    (vectorQuery : List ℚ → Except String (List SearchResult))
    (keyword : String → Option (List ContextType) → Nat → Option String →
      Except String (List SearchResult))
    (query : String) (contextTypes : Option (List ContextType)) (limit : Nat)
    (projectId : Option String) : Except String (List SearchResult) :=
  let attempt : Except String (List SearchResult) :=
    match embedQuery with
    | Except.error e => Except.error e
    | Except.ok emb =>
      if hasVectorIndex then vectorQuery emb
      else keyword query contextTypes limit projectId
  match attempt with
  | Except.ok r => Except.ok r
  | Except.error _ => keyword query contextTypes limit projectId

/-- `SemanticSearch.searchContexts`: dispatch on `useSemanticSearch`. -/
def searchContexts (embedQuery : Except String (List ℚ)) (hasVectorIndex : Bool)
    (vectorQuery : List ℚ → Except String (List SearchResult))
    (keyword : String → Option (List ContextType) → Nat → Option String →
      Except String (List SearchResult))
    (query : String) (contextTypes : Option (List ContextType)) (limit : Nat)
    (projectId : Option String) (useSemanticSearch : Bool) :
    Except String (List SearchResult) :=
  if useSemanticSearch then
    semanticSearch embedQuery hasVectorIndex vectorQuery keyword query
      contextTypes limit projectId
  else keyword query contextTypes limit projectId

/-! ## `ContextInjector` (`src/injection/context-injector.ts`) -/

/-- Injection formats (`'full' | 'summary' | 'reference'`). -/
inductive InjFormat
  | full
  | summary
  | reference
deriving DecidableEq

/-- One entry of `InjectionResult['contexts']`. -/
structure SelectedContext where
  context : ContextNode
  score : ℚ
  chatTitle : String
  format : InjFormat
  tokens : Nat
deriving DecidableEq

/-- `InjectionResult` of `prepareContextForInjection`. -/
structure InjectionResult where
  contexts : List SelectedContext
  totalTokens : Nat
  injectionStrategy : String
deriving DecidableEq

/-- `priorityFactors`: the weight record; `type` is the multiplier lookup
(`factors.type[contextType] || 1.0`, total here since the default table
lists all five types). -/
structure PriorityFactors where
  recency : ℚ
  relevance : ℚ
  importance : ℚ
  type : ContextType → ℚ

/-- `defaultPriorityFactors` of `ContextInjector`. -/
def defaultPriorityFactors : PriorityFactors where
  recency := 0.2
  relevance := 0.5
  importance := 0.3
  type := fun t =>
    match t with
    | ContextType.error => 1.2
    | ContextType.requirement => 1.1
    | ContextType.decision => 1.0
    | ContextType.code => 0.9
    | ContextType.discussion => 0.7

/-- `ContextInjector.estimateTokens`: `Math.ceil(text.length / 4)`. -/
def estimateTokens (text : String) : Nat :=
  (text.length + 3) / 4

/-- JavaScript truthiness of `context.summary` (absent or empty string is
falsy). -/
def summaryTruthy : Option String → Bool
  | none => false
  | some s => s ≠ ""

/-- The entry pushed by `tryAddContext`: the JavaScript spread
`{...result, format, tokens}`. -/
def selectedOf (result : SearchResult) (format : InjFormat) (tokens : Nat) :
    SelectedContext where
  context := result.context
  score := result.score
  chatTitle := result.chatTitle
  format := format
  tokens := tokens

/-- `ContextInjector.tryAddContext`: preferred format first (reference at a
flat 50 tokens, or full at `tokenCount`), then the summary estimate when a
summary is present, then reference as last resort; each guarded by
`currentTokens + tokens <= maxTokens`.  Returns the extended selection and
new total, or `none` when nothing fits. -/
def tryAddContext (result : SearchResult) (selected : List SelectedContext)
    (currentTokens maxTokens : Nat) (preferredFormat : InjFormat) :
    Option (List SelectedContext × Nat) :=
  let context := result.context
  let refTokens := 50
  if preferredFormat = InjFormat.reference ∧ currentTokens + refTokens ≤ maxTokens then
    some (selected ++ [selectedOf result InjFormat.reference refTokens],
      currentTokens + refTokens)
  else
    let fullTokens := context.tokenCount
    if preferredFormat = InjFormat.full ∧ currentTokens + fullTokens ≤ maxTokens then
      some (selected ++ [selectedOf result InjFormat.full fullTokens],
        currentTokens + fullTokens)
    else
      let summaryTokens := estimateTokens (context.summary.getD "")
      if summaryTruthy context.summary = true ∧ currentTokens + summaryTokens ≤ maxTokens then
        some (selected ++ [selectedOf result InjFormat.summary summaryTokens],
          currentTokens + summaryTokens)
      else if currentTokens + refTokens ≤ maxTokens then
        some (selected ++ [selectedOf result InjFormat.reference refTokens],
          currentTokens + refTokens)
      else none

/-- The critical-tier loop of `selectContextsWithinBudget`: every candidate
is tried; a failed attempt is skipped (no break). -/
def addCritical (maxTokens : Nat) (format : InjFormat) :
    List SearchResult → List SelectedContext × Nat → List SelectedContext × Nat
  | [], st => st
  | r :: rest, st =>
    match tryAddContext r st.1 st.2 maxTokens format with
    | some st' => addCritical maxTokens format rest st'
    | none => addCritical maxTokens format rest st

/-- The regular-tier loop of `selectContextsWithinBudget`: a failed attempt
with `totalTokens >= maxTokens * 0.9` sets the strategy to
`token_limit_reached` and breaks; the float comparison is the exact
`10 * totalTokens ≥ 9 * maxTokens`. -/
def addRegular (maxTokens : Nat) (format : InjFormat) :
    List SearchResult → List SelectedContext × Nat × String →
    List SelectedContext × Nat × String
  | [], st => st
  | r :: rest, st =>
    match tryAddContext r st.1 st.2.1 maxTokens format with
    | some st' => addRegular maxTokens format rest (st'.1, st'.2, st.2.2)
    | none =>
      if 10 * st.2.1 ≥ 9 * maxTokens then (st.1, st.2.1, "token_limit_reached")
      else addRegular maxTokens format rest st

/-- `criticalThreshold` of `selectContextsWithinBudget`. -/
def criticalThreshold : ℚ := 0.8

/-- The two selection loops of `selectContextsWithinBudget`: partition at
the critical threshold, run the critical tier, then the regular tier,
starting from the empty selection with strategy `standard`. -/
def selectLoops (results : List SearchResult) (maxTokens : Nat)
    (format : InjFormat) : List SelectedContext × Nat × String :=
  let criticalContexts := results.filter (fun r => criticalThreshold ≤ r.score)
  let regularContexts := results.filter (fun r => r.score < criticalThreshold)
  let st := addCritical maxTokens format criticalContexts ([], 0)
  addRegular maxTokens format regularContexts (st.1, st.2, "standard")

/-- `ContextInjector.selectContextsWithinBudget`: the two loops, then the
forced-summary fallback — when the selection is empty and candidates exist,
the top candidate is force-included in summary format whenever
`estimateTokens(first.context.summary || '')` fits the budget. -/
def selectContextsWithinBudget (results : List SearchResult) (maxTokens : Nat)
    (format : InjFormat) : InjectionResult :=
  let st := selectLoops results maxTokens format
  match results with
  | [] => { contexts := st.1, totalTokens := st.2.1, injectionStrategy := st.2.2 }
  | firstResult :: _ =>
    if st.1 = [] then
      let summaryTokens := estimateTokens (firstResult.context.summary.getD "")
      if summaryTokens ≤ maxTokens then
        { contexts := [selectedOf firstResult InjFormat.summary summaryTokens],
          totalTokens := summaryTokens,
          injectionStrategy := "forced_summary" }
      else { contexts := st.1, totalTokens := st.2.1, injectionStrategy := st.2.2 }
    else { contexts := st.1, totalTokens := st.2.1, injectionStrategy := st.2.2 }

/-- Stable insertion into a score-descending list (insert after
score-equal entries). -/
def insertByScoreDesc (r : SearchResult) : List SearchResult → List SearchResult
  | [] => [r]
  | x :: xs => if x.score < r.score then r :: x :: xs else x :: insertByScoreDesc r xs

/-- Stable sort by score, descending — the behaviour ECMAScript guarantees
for `sort((a, b) => b.score - a.score)`. -/
def sortByScoreDesc (results : List SearchResult) : List SearchResult :=
  results.foldr insertByScoreDesc []

/-- `ContextInjector.prioritizeContexts`: composite score
`relevance*Wr + recency*Wc + importance*Wi*typeMultiplier`, then sort
descending.  `recencyScore` — `Math.exp(-daysSinceCreation / 30)` computed
from the wall clock — is transcendental and impure, and is supplied as an
input on the context. -/
def prioritizeContexts (recencyScore : ContextNode → ℚ) (factors : PriorityFactors)
    (results : List SearchResult) : List SearchResult :=
  sortByScoreDesc (results.map (fun result =>
    let context := result.context
    let typeMultiplier := factors.type context.contextType
    let combinedScore := result.score * factors.relevance +
      recencyScore context * factors.recency +
      context.importanceScore * factors.importance * typeMultiplier
    { result with score := combinedScore }))

/-- `ContextInjector.prepareContextForInjection`: the retrieval call is
external and its result list is the input `searchResults`; an empty result
list short-circuits to the `no_results` outcome, otherwise the candidates
are prioritized and selected within the budget. -/
def prepareContextForInjection (recencyScore : ContextNode → ℚ)
    (factors : PriorityFactors) (searchResults : List SearchResult)
    (maxTokens : Nat) (format : InjFormat) : InjectionResult :=
  match searchResults with
  | [] => { contexts := [], totalTokens := 0, injectionStrategy := "no_results" }
  | _ :: _ =>
    selectContextsWithinBudget
      (prioritizeContexts recencyScore factors searchResults) maxTokens format

/-! ## Concrete inputs used by witnesses and counterexamples -/

/-- Concrete error item for the C5 witness. -/
def c5sample : ContextNode where
  id := "c5"
  chatId := "chat"
  projectId := "p"
  content := "critical fix for the login flow"
  contextType := ContextType.error
  importanceScore := 0.9
  timestamp := 0
  tokenCount := 8

/-- Concrete code item (post-scoring importance 0.7) for the C8
counterexample. -/
def c8code : ContextNode where
  id := "c8a"
  chatId := "chat"
  projectId := "p"
  content := "let x = 1"
  contextType := ContextType.code
  importanceScore := 0.7
  timestamp := 0
  tokenCount := countTokens "let x = 1"

/-- Concrete error item (post-scoring importance 1.0) for the C8
counterexample. -/
def c8error : ContextNode where
  id := "c8b"
  chatId := "chat"
  projectId := "p"
  content := "Cannot read property length of undefined value"
  contextType := ContextType.error
  importanceScore := 0.9
  timestamp := 1000
  tokenCount := countTokens "Cannot read property length of undefined value"

/-- Critical-tier candidate for the C9 counterexample: composite score 0.9,
900-token content. -/
def c9criticalNode : ContextNode where
  id := "c9a"
  chatId := "chat"
  projectId := "p"
  content := "large retrieved content"
  contextType := ContextType.code
  importanceScore := 0.7
  timestamp := 0
  tokenCount := 900

/-- Regular-tier candidate for the C9 counterexample: composite score 0.5,
50-token content. -/
def c9regularNode : ContextNode where
  id := "c9b"
  chatId := "chat"
  projectId := "p"
  content := "small retrieved content"
  contextType := ContextType.code
  importanceScore := 0.5
  timestamp := 0
  tokenCount := 50

/-- Search result wrapping `c9criticalNode`. -/
def c9critical : SearchResult where
  context := c9criticalNode
  score := 0.9
  chatTitle := "t1"

/-- Search result wrapping `c9regularNode`. -/
def c9regular : SearchResult where
  context := c9regularNode
  score := 0.5
  chatTitle := "t2"

/-- Candidate that fits no format under the remaining budget, for the C9
amended witness. -/
def c9wNode : ContextNode where
  id := "c9w"
  chatId := "chat"
  projectId := "p"
  content := "unfit content"
  contextType := ContextType.code
  importanceScore := 0.5
  timestamp := 0
  tokenCount := 10

/-- Search result wrapping `c9wNode`. -/
def c9wSearch : SearchResult where
  context := c9wNode
  score := 0.3
  chatTitle := "w"

/-- Summary-less oversized candidate for the C10 witness. -/
def c10node : ContextNode where
  id := "c10"
  chatId := "chat"
  projectId := "p"
  content := "very large content body"
  summary := none
  contextType := ContextType.code
  importanceScore := 0
  timestamp := 0
  tokenCount := 10000

/-- Search result wrapping `c10node` with relevance score 0. -/
def c10result : SearchResult where
  context := c10node
  score := 0
  chatTitle := "t"

/-- Single-line oversized item for the C4 counterexample (token count 3
against a configured ceiling of 2). -/
def c4node : ContextNode where
  id := "c4"
  chatId := "chat"
  projectId := "p"
  content := "abcdefghijkl"
  contextType := ContextType.code
  importanceScore := 0.7
  timestamp := 0
  tokenCount := countTokens "abcdefghijkl"

/-- Content with ten one-character lines and a 100-character final line, for
the C4 amended witness. -/
def c4wContent : String :=
  "a\na\na\na\na\na\na\na\na\na\n" ++ String.mk (List.replicate 100 'b')

/-- Oversized multi-line item whose dropped tail outweighs the marker. -/
def c4wNode : ContextNode where
  id := "c4w"
  chatId := "chat"
  projectId := "p"
  content := c4wContent
  contextType := ContextType.code
  importanceScore := 0.5
  timestamp := 0
  tokenCount := countTokens c4wContent

/-- Error-classifier match for the C7 witness. -/
def c7errMatch : RegexMatch where
  fullMatch := "Error: database connection failed after retry"
  capture := some "database connection failed after retry"

/-- The node the error classifier produces from `c7errMatch`. -/
def c7errNode : ContextNode where
  id := "id0"
  chatId := "chat"
  projectId := "p"
  content := "Error: database connection failed after retry"
  contextType := ContextType.error
  importanceScore := 0.9
  timestamp := 0
  tokenCount := countTokens "Error: database connection failed after retry"

/-- The 498-character punctuation-free body of the C7 counterexample
capture. -/
def c7body : String := String.mk (List.replicate 498 'a')

/-- A match of the second decision pattern whose capture has 499 characters
but whose full match has 511. -/
def c7match : RegexMatch where
  fullMatch := "The plan is " ++ c7body ++ "."
  capture := some (c7body ++ ".")

/-- First code item of the C2 scenario (five function declarations). -/
def c2firstContent : String :=
  "function alpha()\nfunction beta()\nfunction gamma()\nfunction delta()\nfunction epsilon()"

/-- Second code item of the C2 scenario: 80% identical function names. -/
def c2secondContent : String :=
  "function alpha()\nfunction beta()\nfunction gamma()\nfunction delta()\nfunction zeta()"

/-- First code item of the C2 scenario, at timestamp 0. -/
def c2first : ContextNode where
  id := "c2a"
  chatId := "chat"
  projectId := "p"
  content := c2firstContent
  contextType := ContextType.code
  importanceScore := 0.7
  timestamp := 0
  tokenCount := countTokens c2firstContent

/-- Second code item of the C2 scenario, one hour (3,600,000 ms) later. -/
def c2second : ContextNode where
  id := "c2b"
  chatId := "chat"
  projectId := "p"
  content := c2secondContent
  contextType := ContextType.code
  importanceScore := 0.7
  timestamp := 3600000
  tokenCount := countTokens c2secondContent

/-- The function names that the detector's `/function\s+(\w+)/g` pattern
extracts from `c2firstContent` (hand-traced; the four other function-name
patterns — `const … = (`, `name : (`, `def …`, `func …` — match nothing on
this content). -/
def c2firstFunctionNames : List String :=
  ["alpha", "beta", "gamma", "delta", "epsilon"]

/-- The function names extracted from `c2secondContent`. -/
def c2secondFunctionNames : List String :=
  ["alpha", "beta", "gamma", "delta", "zeta"]

/-! ## Theorems -/

/-- The extractor's running token sum is the list sum. -/
theorem foldl_add_tokenCount (l : List ContextNode) (n : Nat) :
    l.foldl (fun sum ctx => sum + ctx.tokenCount) n =
      n + (l.map (fun ctx => ctx.tokenCount)).sum := by
  induction l generalizing n with
  | nil => simp
  | cons c cs ih => simp [ih, Nat.add_assoc]

/-- C3: for every transcript (that is, for every candidate set the five
classifiers produce from it), the `totalTokens` field of the
`extractFromChat` result equals the sum of `tokenCount` over the `contexts`
returned in that same result. -/
theorem extractFromChat_totalTokens_eq_sum (maxContextTokens : Nat)
    (codeContexts decisions requirements errors discussions : List ContextNode)
    (content : String) :
    (extractFromChat maxContextTokens codeContexts decisions requirements errors
      discussions content).totalTokens =
    ((extractFromChat maxContextTokens codeContexts decisions requirements errors
      discussions content).contexts.map (fun ctx => ctx.tokenCount)).sum := by
  simp [extractFromChat, foldl_add_tokenCount]
  omega

/-- A fold that conditionally adds nonnegative bonuses never decreases its
accumulator. -/
theorem foldl_if_add_ge (f : (String × ℚ) → Bool) (l : List (String × ℚ))
    (h : ∀ kb ∈ l, 0 ≤ kb.2) (init : ℚ) :
    init ≤ l.foldl (fun s kb => if f kb then s + kb.2 else s) init := by
  induction l generalizing init with
  | nil => simp
  | cons kb rest ih =>
    simp only [List.foldl_cons]
    refine le_trans ?_ (ih (fun x hx => h x (List.mem_cons_of_mem _ hx)) _)
    have hkb := h kb (List.mem_cons_self _ _)
    split <;> linarith

/-- A fold that conditionally adds bonuses is the identity when no
condition fires. -/
theorem foldl_if_add_id (f : (String × ℚ) → Bool) (l : List (String × ℚ))
    (h : ∀ kb ∈ l, f kb = false) (init : ℚ) :
    l.foldl (fun s kb => if f kb then s + kb.2 else s) init = init := by
  induction l generalizing init with
  | nil => rfl
  | cons kb rest ih =>
    simp only [List.foldl_cons, h kb (List.mem_cons_self _ _), Bool.false_eq_true,
      if_false]
    exact ih (fun x hx => h x (List.mem_cons_of_mem _ hx)) init

/-- `scoreContext` only rewrites the importance score. -/
theorem scoreContext_fields (ctx : ContextNode) :
    (scoreContext ctx).id = ctx.id ∧ (scoreContext ctx).content = ctx.content ∧
    (scoreContext ctx).contextType = ctx.contextType ∧
    (scoreContext ctx).timestamp = ctx.timestamp ∧
    (scoreContext ctx).tokenCount = ctx.tokenCount ∧
    (scoreContext ctx).summary = ctx.summary :=
  ⟨rfl, rfl, rfl, rfl, rfl, rfl⟩

theorem scoreContext_id (ctx : ContextNode) : (scoreContext ctx).id = ctx.id := rfl

theorem scoreContext_content (ctx : ContextNode) :
    (scoreContext ctx).content = ctx.content := rfl

theorem scoreContext_contextType (ctx : ContextNode) :
    (scoreContext ctx).contextType = ctx.contextType := rfl

theorem scoreContext_timestamp (ctx : ContextNode) :
    (scoreContext ctx).timestamp = ctx.timestamp := rfl

theorem scoreContext_tokenCount (ctx : ContextNode) :
    (scoreContext ctx).tokenCount = ctx.tokenCount := rfl

/-- `summarizeIfNeeded` only fills `summary` / `isSummarized`. -/
theorem summarizeIfNeeded_id (maxTok : Nat) (ctx : ContextNode) :
    (summarizeIfNeeded maxTok ctx).id = ctx.id := by
  unfold summarizeIfNeeded; split <;> rfl

theorem summarizeIfNeeded_content (maxTok : Nat) (ctx : ContextNode) :
    (summarizeIfNeeded maxTok ctx).content = ctx.content := by
  unfold summarizeIfNeeded; split <;> rfl

theorem summarizeIfNeeded_contextType (maxTok : Nat) (ctx : ContextNode) :
    (summarizeIfNeeded maxTok ctx).contextType = ctx.contextType := by
  unfold summarizeIfNeeded; split <;> rfl

theorem summarizeIfNeeded_timestamp (maxTok : Nat) (ctx : ContextNode) :
    (summarizeIfNeeded maxTok ctx).timestamp = ctx.timestamp := by
  unfold summarizeIfNeeded; split <;> rfl

theorem summarizeIfNeeded_tokenCount (maxTok : Nat) (ctx : ContextNode) :
    (summarizeIfNeeded maxTok ctx).tokenCount = ctx.tokenCount := by
  unfold summarizeIfNeeded; split <;> rfl

theorem summarizeIfNeeded_importanceScore (maxTok : Nat) (ctx : ContextNode) :
    (summarizeIfNeeded maxTok ctx).importanceScore = ctx.importanceScore := by
  unfold summarizeIfNeeded; split <;> rfl

/-- C5: for every candidate whose pre-scoring `importanceScore` lies in
[0,1], the score after `scoreContext` (type bonus, size bonuses at 100 and
500 tokens, additive keyword bonuses, final clamp at 1.0) is still in [0,1]
and is never below the pre-scoring value. -/
theorem scoreContext_score_in_unit_and_monotone (ctx : ContextNode)
    (h0 : 0 ≤ ctx.importanceScore) (h1 : ctx.importanceScore ≤ 1) :
    0 ≤ (scoreContext ctx).importanceScore ∧
    (scoreContext ctx).importanceScore ≤ 1 ∧
    ctx.importanceScore ≤ (scoreContext ctx).importanceScore := by
  obtain ⟨S, hS, hmin⟩ :
      ∃ S : ℚ, ctx.importanceScore ≤ S ∧
        (scoreContext ctx).importanceScore = min S 1 := by
    refine ⟨_, ?_, rfl⟩
    refine le_trans ?_ (foldl_if_add_ge _ keywordBoosts ?_ _)
    · split_ifs <;> linarith
    · intro kb hkb
      fin_cases hkb <;> norm_num
  refine ⟨le_trans h0 (hmin ▸ le_min hS h1), ?_, ?_⟩
  · rw [hmin]; exact min_le_right _ _
  · rw [hmin]; exact le_min hS h1

/-- Witness for C5 at a concrete error item with pre-score 0.9. -/
theorem scoreContext_score_in_unit_witness :
    0 ≤ (scoreContext c5sample).importanceScore ∧
    (scoreContext c5sample).importanceScore ≤ 1 ∧
    c5sample.importanceScore ≤ (scoreContext c5sample).importanceScore :=
  scoreContext_score_in_unit_and_monotone c5sample (by norm_num [c5sample])
    (by norm_num [c5sample])

/-- C8 amended: the `extract_context` handler caps with
`contexts.slice(0, maxContexts)`, so the capped result is the initial
segment of the full scored extraction in classifier-emission order (code,
decision, requirement, error, discussion) — it is a prefix of at most
`maxContexts` items, not a selection of the highest-priority ones. -/
theorem extractContextHandler_takes_initial_segment
    (maxContextTokens maxContexts : Nat)
    (codeContexts decisions requirements errors discussions : List ContextNode)
    (content : String) :
    (extractContextHandler maxContextTokens maxContexts codeContexts decisions
      requirements errors discussions content) <+:
      (extractFromChat maxContextTokens codeContexts decisions requirements
        errors discussions content).contexts ∧
    (extractContextHandler maxContextTokens maxContexts codeContexts decisions
      requirements errors discussions content).length ≤ maxContexts := by
  constructor
  · exact ⟨_, List.take_append_drop _ _⟩
  · simp [extractContextHandler]

/-- C8 counterexample: with `maxContexts = 1`, the full scored extraction
holds a code item scored 0.7 followed by an error item scored 1.0, and the
capped result keeps the 0.7 item while discarding the higher-priority 1.0
item. -/
theorem extractContextHandler_cap_drops_higher_priority :
    ((extractContextHandler 4000 1 [c8code] [] [] [c8error] [] "").map
      (fun ctx => ctx.importanceScore)) = [0.7] ∧
    (((extractFromChat 4000 [c8code] [] [] [c8error] [] "").contexts).map
      (fun ctx => ctx.importanceScore)) = [0.7, 1] ∧
    (0.7 : ℚ) < 1 := by
  have hcode : (scoreContext c8code).importanceScore = 0.7 := by
    unfold scoreContext
    dsimp only
    rw [foldl_if_add_id (fun kb => jsIncludes (jsToLower c8code.content) (jsToLower kb.1))
      keywordBoosts (by decide)]
    simp only [show c8code.contextType = ContextType.code from rfl,
      show c8code.tokenCount = 3 from by decide]
    simp
    norm_num [show c8code.importanceScore = 0.7 from rfl, min_def]
  have herr : (scoreContext c8error).importanceScore = 1 := by
    unfold scoreContext
    dsimp only
    rw [foldl_if_add_id (fun kb => jsIncludes (jsToLower c8error.content) (jsToLower kb.1))
      keywordBoosts (by decide)]
    simp only [show c8error.contextType = ContextType.error from rfl,
      show c8error.tokenCount = 12 from by decide]
    simp
    norm_num [show c8error.importanceScore = 0.9 from rfl, min_def]
  refine ⟨?_, ?_, by norm_num⟩
  · simp [extractContextHandler, extractFromChat, summarizeIfNeeded_importanceScore,
      hcode]
  · simp [extractFromChat, summarizeIfNeeded_importanceScore, hcode, herr]

/-- Whenever `tryAddContext` succeeds, it appends exactly one entry, adds
that entry's tokens to the running total, and the new total still fits the
budget. -/
theorem tryAddContext_some (result : SearchResult) (selected : List SelectedContext)
    (currentTokens maxTokens : Nat) (format : InjFormat)
    (st : List SelectedContext × Nat)
    (h : tryAddContext result selected currentTokens maxTokens format = some st) :
    ∃ e, st.1 = selected ++ [e] ∧ st.2 = currentTokens + e.tokens ∧ st.2 ≤ maxTokens := by
  simp only [tryAddContext] at h
  split_ifs at h with h1 h2 h3 h4 <;>
    refine Option.some_injective _ h ▸ ⟨_, rfl, rfl, ?_⟩
  · exact h1.2
  · exact h2.2
  · exact h3.2
  · exact h4

/-- The critical-tier loop preserves the "total = sum of selected tokens"
and "total within budget" invariant. -/
theorem addCritical_inv (maxTokens : Nat) (format : InjFormat)
    (results : List SearchResult) (st : List SelectedContext × Nat)
    (hsum : st.2 = (st.1.map (fun e => e.tokens)).sum) (hle : st.2 ≤ maxTokens) :
    (addCritical maxTokens format results st).2 =
      (((addCritical maxTokens format results st).1).map (fun e => e.tokens)).sum ∧
    (addCritical maxTokens format results st).2 ≤ maxTokens := by
  induction results generalizing st with
  | nil => exact ⟨hsum, hle⟩
  | cons r rest ih =>
    cases htry : tryAddContext r st.1 st.2 maxTokens format with
    | none => simp only [addCritical, htry]; exact ih st hsum hle
    | some st' =>
      simp only [addCritical, htry]
      obtain ⟨e, hsel, htot, hfit⟩ := tryAddContext_some _ _ _ _ _ _ htry
      refine ih st' ?_ hfit
      rw [htot, hsel, hsum]
      simp

/-- The regular-tier loop preserves the same invariant (the break branch
returns the state unchanged apart from the strategy label). -/
theorem addRegular_inv (maxTokens : Nat) (format : InjFormat)
    (results : List SearchResult) (st : List SelectedContext × Nat × String)
    (hsum : st.2.1 = (st.1.map (fun e => e.tokens)).sum) (hle : st.2.1 ≤ maxTokens) :
    (addRegular maxTokens format results st).2.1 =
      (((addRegular maxTokens format results st).1).map (fun e => e.tokens)).sum ∧
    (addRegular maxTokens format results st).2.1 ≤ maxTokens := by
  induction results generalizing st with
  | nil => exact ⟨hsum, hle⟩
  | cons r rest ih =>
    cases htry : tryAddContext r st.1 st.2.1 maxTokens format with
    | none =>
      simp only [addRegular, htry]
      split
      · exact ⟨hsum, hle⟩
      · exact ih st hsum hle
    | some st' =>
      simp only [addRegular, htry]
      obtain ⟨e, hsel, htot, hfit⟩ := tryAddContext_some _ _ _ _ _ _ htry
      refine ih (st'.1, st'.2, st.2.2) ?_ hfit
      rw [htot, hsel, hsum]
      simp

/-- The budget invariant for the complete selection (loops plus the
forced-summary fallback). -/
theorem selectContextsWithinBudget_inv (results : List SearchResult)
    (maxTokens : Nat) (format : InjFormat) :
    (selectContextsWithinBudget results maxTokens format).totalTokens ≤ maxTokens ∧
    (selectContextsWithinBudget results maxTokens format).totalTokens =
      (((selectContextsWithinBudget results maxTokens format).contexts).map
        (fun e => e.tokens)).sum := by
  have hloops := addRegular_inv maxTokens format
    (results.filter (fun r => r.score < criticalThreshold))
    ((addCritical maxTokens format
        (results.filter (fun r => criticalThreshold ≤ r.score)) ([], 0)).1,
      (addCritical maxTokens format
        (results.filter (fun r => criticalThreshold ≤ r.score)) ([], 0)).2,
      "standard")
    (addCritical_inv maxTokens format _ ([], 0) (by simp) (Nat.zero_le _)).1
    (addCritical_inv maxTokens format _ ([], 0) (by simp) (Nat.zero_le _)).2
  unfold selectContextsWithinBudget selectLoops
  cases results with
  | nil => exact ⟨hloops.2, hloops.1⟩
  | cons firstResult rest =>
    dsimp only
    split
    · split
      · next hfit => exact ⟨hfit, by simp [selectedOf]⟩
      · exact ⟨hloops.2, hloops.1⟩
    · exact ⟨hloops.2, hloops.1⟩

/-- C1: for every query, token budget, preferred format and candidate list,
the selection returned by `prepareContextForInjection` has cumulative token
count at most `maxTokens`, and its `totalTokens` field is exactly the sum of
the `tokens` fields of the selected entries. -/
theorem prepareContextForInjection_within_budget (recencyScore : ContextNode → ℚ)
    (factors : PriorityFactors) (searchResults : List SearchResult)
    (maxTokens : Nat) (format : InjFormat) :
    (prepareContextForInjection recencyScore factors searchResults maxTokens
      format).totalTokens ≤ maxTokens ∧
    (prepareContextForInjection recencyScore factors searchResults maxTokens
      format).totalTokens =
      (((prepareContextForInjection recencyScore factors searchResults maxTokens
        format).contexts).map (fun e => e.tokens)).sum := by
  cases searchResults with
  | nil => simp [prepareContextForInjection]
  | cons r rest =>
    exact selectContextsWithinBudget_inv _ maxTokens format

/-- C9 counterexample: with a 1000-token budget and preferred format
`full`, the critical tier consumes 900 tokens — exactly 90% of the budget —
yet the regular-tier candidate (composite score 0.5 < 0.8) is still added
afterwards, because the 90% check only runs when an addition fails. -/
theorem selectContexts_adds_regular_past_ninety_percent :
    (addCritical 1000 InjFormat.full [c9critical] ([], 0)).2 = 900 ∧
    10 * 900 ≥ 9 * 1000 ∧
    c9regular.score < criticalThreshold ∧
    ((selectContextsWithinBudget [c9critical, c9regular] 1000
      InjFormat.full).contexts.map (fun e => (e.context.id, e.tokens))) =
      [("c9a", 900), ("c9b", 50)] ∧
    (selectContextsWithinBudget [c9critical, c9regular] 1000
      InjFormat.full).totalTokens = 950 := by
  have hc : criticalThreshold ≤ c9critical.score := by
    norm_num [criticalThreshold, c9critical]
  have hr : c9regular.score < criticalThreshold := by
    norm_num [criticalThreshold, c9regular]
  have hfc : List.filter (fun r => decide (criticalThreshold ≤ r.score))
      [c9critical, c9regular] = [c9critical] := by
    simp [List.filter_cons, decide_eq_true_eq, hc, not_le.mpr hr]
  have hfr : List.filter (fun r => decide (r.score < criticalThreshold))
      [c9critical, c9regular] = [c9regular] := by
    simp [List.filter_cons, decide_eq_true_eq, hr, not_lt.mpr hc]
  have hsel : selectContextsWithinBudget [c9critical, c9regular] 1000
      InjFormat.full =
      { contexts := [selectedOf c9critical InjFormat.full 900,
          selectedOf c9regular InjFormat.full 50],
        totalTokens := 950, injectionStrategy := "standard" } := by
    unfold selectContextsWithinBudget selectLoops
    rw [hfc, hfr]
    rfl
  exact ⟨rfl, by norm_num, hr, by rw [hsel]; rfl, by rw [hsel]⟩

/-- C9 amended: the 90% rule is a stop-on-failure rule — when a regular-tier
candidate fails to fit and at least 90% of the budget is consumed, the loop
stops with strategy `token_limit_reached` and ignores every remaining
candidate; regular-tier candidates that still fit are added even past the
90% mark (see the counterexample). -/
theorem addRegular_break_on_unfit_past_ninety (maxTokens : Nat)
    (format : InjFormat) (r : SearchResult) (rest : List SearchResult)
    (st : List SelectedContext × Nat × String)
    (hfail : tryAddContext r st.1 st.2.1 maxTokens format = none)
    (h90 : 10 * st.2.1 ≥ 9 * maxTokens) :
    addRegular maxTokens format (r :: rest) st =
      (st.1, st.2.1, "token_limit_reached") := by
  simp only [addRegular, hfail]
  rw [if_pos h90]

/-- Witness for the C9 amended theorem: at 95 of 100 tokens consumed, a
candidate that fits under no format stops the regular loop. -/
theorem addRegular_break_witness :
    addRegular 100 InjFormat.full [c9wSearch] ([], 95, "standard") =
      ([], 95, "token_limit_reached") :=
  addRegular_break_on_unfit_past_ninety 100 InjFormat.full c9wSearch []
    ([], 95, "standard") rfl (by norm_num)

/-- C10: when prioritization yields `r :: rs` and the two selection loops
select nothing, `prepareContextForInjection` force-includes the top-ranked
candidate in summary format with strategy `forced_summary` whenever the
estimate of `summary || ''` fits the budget; in particular, with no summary
the estimate is taken over the empty string, so the candidate is included
with `tokens = 0` and `totalTokens = 0` for every budget. -/
theorem prepareContextForInjection_forced_summary
    (recencyScore : ContextNode → ℚ) (factors : PriorityFactors)
    (searchResults : List SearchResult) (maxTokens : Nat) (format : InjFormat)
    (r : SearchResult) (rs : List SearchResult)
    (hP : prioritizeContexts recencyScore factors searchResults = r :: rs)
    (hne : searchResults ≠ [])
    (hempty : (selectLoops (r :: rs) maxTokens format).1 = []) :
    (estimateTokens (r.context.summary.getD "") ≤ maxTokens →
      prepareContextForInjection recencyScore factors searchResults maxTokens
        format =
      { contexts := [selectedOf r InjFormat.summary
          (estimateTokens (r.context.summary.getD ""))],
        totalTokens := estimateTokens (r.context.summary.getD ""),
        injectionStrategy := "forced_summary" }) ∧
    (r.context.summary = none →
      prepareContextForInjection recencyScore factors searchResults maxTokens
        format =
      { contexts := [selectedOf r InjFormat.summary 0], totalTokens := 0,
        injectionStrategy := "forced_summary" }) := by
  cases searchResults with
  | nil => exact absurd rfl hne
  | cons s ss =>
    unfold prepareContextForInjection
    rw [hP]
    unfold selectContextsWithinBudget
    dsimp only
    rw [if_pos hempty]
    refine ⟨fun hfit => by rw [if_pos hfit], fun hnone => ?_⟩
    have h0 : estimateTokens (r.context.summary.getD "") = 0 := by
      rw [hnone]; rfl
    rw [if_pos (by rw [h0]; exact Nat.zero_le maxTokens)]
    rw [h0]

/-- Witness for C10: a single 10000-token, summary-less candidate under a
zero budget is force-included with 0 tokens. -/
theorem prepareContextForInjection_forced_summary_witness :
    prepareContextForInjection (fun _ => 0) defaultPriorityFactors [c10result]
      0 InjFormat.full =
      { contexts := [selectedOf c10result InjFormat.summary 0],
        totalTokens := 0, injectionStrategy := "forced_summary" } := by
  have hP : prioritizeContexts (fun _ => 0) defaultPriorityFactors [c10result] =
      [c10result] := by
    simp only [prioritizeContexts, sortByScoreDesc, insertByScoreDesc,
      List.map_cons, List.map_nil, List.foldr]
    norm_num [defaultPriorityFactors, c10result, c10node, SearchResult.mk.injEq]
  have hlt : c10result.score < criticalThreshold := by
    norm_num [c10result, criticalThreshold]
  have hf1 : List.filter (fun r => decide (criticalThreshold ≤ r.score))
      [c10result] = [] := by
    simp [List.filter_cons, decide_eq_true_eq, not_le.mpr hlt]
  have hf2 : List.filter (fun r => decide (r.score < criticalThreshold))
      [c10result] = [c10result] := by
    simp [List.filter_cons, decide_eq_true_eq, hlt]
  have hempty : (selectLoops [c10result] 0 InjFormat.full).1 = [] := by
    unfold selectLoops
    rw [hf1, hf2]
    rfl
  exact (prepareContextForInjection_forced_summary (fun _ => 0)
    defaultPriorityFactors [c10result] 0 InjFormat.full c10result [] hP
    (by simp) hempty).2 rfl

/-- C6: whenever the semantic path fails at runtime — embedding generation
errors, the vector index is unavailable, or the vector retrieval errors —
`searchContexts` (with the semantic flag on) does not propagate the error:
its outcome is exactly the keyword path's outcome for the same query, type
filter, limit and project filter. -/
theorem searchContexts_falls_back_to_keyword
    (embedQuery : Except String (List ℚ)) (hasVectorIndex : Bool)
    (vectorQuery : List ℚ → Except String (List SearchResult))
    (keyword : String → Option (List ContextType) → Nat → Option String →
      Except String (List SearchResult))
    (query : String) (contextTypes : Option (List ContextType)) (limit : Nat)
    (projectId : Option String)
    (hfail : (∃ e, embedQuery = Except.error e) ∨ hasVectorIndex = false ∨
      (∃ emb e, embedQuery = Except.ok emb ∧ vectorQuery emb = Except.error e)) :
    searchContexts embedQuery hasVectorIndex vectorQuery keyword query
      contextTypes limit projectId true =
      keyword query contextTypes limit projectId := by
  unfold searchContexts semanticSearch
  rcases hfail with ⟨e, he⟩ | hv | ⟨emb, e, hok, herr⟩
  · rw [he]; rfl
  · subst hv
    cases embedQuery with
    | error e => rfl
    | ok emb =>
      dsimp only [if_false, Bool.false_eq_true]
      cases hk : keyword query contextTypes limit projectId with
      | ok r => simp [hk]
      | error e => simp [hk]
  · rw [hok]
    cases hv : hasVectorIndex with
    | true => simp [herr]
    | false =>
      dsimp only [if_false, Bool.false_eq_true]
      cases hk : keyword query contextTypes limit projectId with
      | ok r => simp [hk]
      | error e => simp [hk]

/-- Witness for C6: the embedding call fails, the keyword oracle returns an
empty result list, and the search returns that empty list. -/
theorem searchContexts_falls_back_witness :
    searchContexts (Except.error "embedding model unavailable") true
      (fun _ => Except.error "vector query failed")
      (fun _ _ _ _ => Except.ok []) "authentication bug" none 10 none true =
      Except.ok ([] : List SearchResult) :=
  searchContexts_falls_back_to_keyword (Except.error "embedding model unavailable")
    true (fun _ => Except.error "vector query failed") (fun _ _ _ _ => Except.ok [])
    "authentication bug" none 10 none
    (Or.inl ⟨"embedding model unavailable", rfl⟩)

/-- C4 counterexample: a single-line item whose token count (3) exceeds a
configured ceiling of 2 is summarized, but the 10-line truncation keeps the
whole content and appends the `(-9 more lines, 3 total tokens)` marker, so
the summary's estimated token count (13) is not strictly below the
content's token count (3). -/
theorem summarizeIfNeeded_summary_not_smaller :
    c4node.tokenCount = countTokens c4node.content ∧
    c4node.tokenCount > 2 ∧
    (summarizeIfNeeded 2 c4node).isSummarized = true ∧
    estimateTokens ((summarizeIfNeeded 2 c4node).summary.getD "") = 13 ∧
    ¬ (estimateTokens ((summarizeIfNeeded 2 c4node).summary.getD "") <
        c4node.tokenCount) := by
  decide

/-- C4 amended: when an item is summarized, the summary's estimated token
count is strictly below the content's token count provided the content is at
least 4 characters longer than the synthesized summary (i.e. the dropped
tail outweighs the appended marker under the length/4 estimate); for
oversized content of at most 10 lines, or with a short dropped tail, the
summary can estimate at least as large as the content (see the
counterexample). -/
theorem summarizeIfNeeded_summary_smaller_when_tail_dropped
    (maxContextTokens : Nat) (ctx : ContextNode) (s : String)
    (hcount : ctx.tokenCount = countTokens ctx.content)
    (_hsum : (summarizeIfNeeded maxContextTokens ctx).summary = some s)
    (hgap : s.length + 4 ≤ ctx.content.length) :
    estimateTokens s < ctx.tokenCount := by
  rw [hcount]
  unfold countTokens estimateTokens
  omega

/-- Witness for the C4 amended theorem at `c4wNode` with ceiling 1. -/
theorem summarizeIfNeeded_summary_smaller_witness :
    estimateTokens ((summarizeIfNeeded 1 c4wNode).summary.getD "") <
      c4wNode.tokenCount :=
  summarizeIfNeeded_summary_smaller_when_tail_dropped 1 c4wNode
    ((summarizeIfNeeded 1 c4wNode).summary.getD "") rfl (by decide) (by decide)

/-- C7 amended: the decision and requirement classifiers apply their
20/500 length filter to the captured span (`match[1]`, trimmed; the full
match when the capture is absent or empty), while the stored `content` is
the trimmed full match — trigger phrase and separating whitespace included —
which can exceed 500 characters (see the counterexample); the error
classifier filters the trimmed full match itself, so every stored error
content has length strictly between 30 and 1000. -/
theorem classifier_span_bounds (chatId projectId : String)
    (genId : Nat → String) (now : Int) :
    (∀ (ms : List RegexMatch) (seen : List String) (idx : Nat)
      (node : ContextNode),
      node ∈ extractDecisionsLoop chatId projectId genId now ms seen idx →
      ∃ m ∈ ms, node.content = jsTrim m.fullMatch ∧
        20 < (capturedSpan m).length ∧ (capturedSpan m).length < 500) ∧
    (∀ (ms : List RegexMatch) (seen : List String) (idx : Nat)
      (node : ContextNode),
      node ∈ extractRequirementsLoop chatId projectId genId now ms seen idx →
      ∃ m ∈ ms, node.content = jsTrim m.fullMatch ∧
        20 < (capturedSpan m).length ∧ (capturedSpan m).length < 500) ∧
    (∀ (ms : List RegexMatch) (seen : List String) (idx : Nat)
      (node : ContextNode),
      node ∈ extractErrorsLoop chatId projectId genId now ms seen idx →
      30 < node.content.length ∧ node.content.length < 1000) := by
  refine ⟨?_, ?_, ?_⟩
  · intro ms
    induction ms with
    | nil => intro seen idx node h; simp [extractDecisionsLoop] at h
    | cons m rest ih =>
      intro seen idx node h
      rw [extractDecisionsLoop] at h
      split at h
      · next hc =>
        rcases List.mem_cons.mp h with hnode | hnode
        · subst hnode
          exact ⟨m, List.mem_cons_self _ _, rfl, hc.1, hc.2.1⟩
        · obtain ⟨m', hm', h1, h2, h3⟩ := ih _ _ _ hnode
          exact ⟨m', List.mem_cons_of_mem _ hm', h1, h2, h3⟩
      · obtain ⟨m', hm', h1, h2, h3⟩ := ih _ _ _ h
        exact ⟨m', List.mem_cons_of_mem _ hm', h1, h2, h3⟩
  · intro ms
    induction ms with
    | nil => intro seen idx node h; simp [extractRequirementsLoop] at h
    | cons m rest ih =>
      intro seen idx node h
      rw [extractRequirementsLoop] at h
      split at h
      · next hc =>
        rcases List.mem_cons.mp h with hnode | hnode
        · subst hnode
          exact ⟨m, List.mem_cons_self _ _, rfl, hc.1, hc.2.1⟩
        · obtain ⟨m', hm', h1, h2, h3⟩ := ih _ _ _ hnode
          exact ⟨m', List.mem_cons_of_mem _ hm', h1, h2, h3⟩
      · obtain ⟨m', hm', h1, h2, h3⟩ := ih _ _ _ h
        exact ⟨m', List.mem_cons_of_mem _ hm', h1, h2, h3⟩
  · intro ms
    induction ms with
    | nil => intro seen idx node h; simp [extractErrorsLoop] at h
    | cons m rest ih =>
      intro seen idx node h
      rw [extractErrorsLoop] at h
      split at h
      · next hc =>
        rcases List.mem_cons.mp h with hnode | hnode
        · subst hnode
          exact ⟨hc.1, hc.2.1⟩
        · exact ih _ _ _ hnode
      · exact ih _ _ _ h

/-- Witness for the C7 amended theorem: a concrete 45-character error span
is stored with length strictly between 30 and 1000. -/
theorem classifier_span_bounds_witness :
    30 < c7errNode.content.length ∧ c7errNode.content.length < 1000 :=
  (classifier_span_bounds "chat" "p" (fun _ => "id0") 0).2.2 [c7errMatch] [] 0
    c7errNode
    (by rw [show extractErrorsLoop "chat" "p" (fun _ => "id0") 0 [c7errMatch]
        [] 0 = [c7errNode] from rfl]
        exact List.mem_singleton_self _)

set_option maxRecDepth 4000 in
/-- C7 counterexample: a genuine match of the decision pattern
`/(?:The plan is|We'll|Let's|I'll|We should|I recommend)\s+([^.!?]+[.!?])/gi`
whose captured span (499 characters) passes the 20/500 filter, while the
stored content — the full match including the trigger phrase — has 511
characters, outside [20,500]. -/
theorem extractDecisions_content_exceeds_bounds :
    ValidDecisionPattern2Match c7match ∧
    ((extractDecisionsLoop "chat" "p" (fun _ => "id0") 0 [c7match] [] 0).map
      (fun node => node.content.length)) = [511] ∧
    500 < 511 := by
  refine ⟨⟨"The plan is", " ", c7body, ".", ?_, ⟨?_, ?_⟩, ?_, ?_, ?_, ?_, ?_⟩,
    by decide, by decide⟩
  · decide
  · decide
  · decide
  · decide
  · decide
  · exact Or.inl rfl
  · decide
  · rfl

/-- Every relationship the extractor's pair scan emits is an IMPLEMENTS,
REFERENCES or RELATED_TO edge. -/
theorem pairRels_type (ctx1 ctx2 : ContextNode) (fullContent : String)
    (rel : Relationship) (h : rel ∈ pairRels ctx1 ctx2 fullContent) :
    rel.type = RelationshipType.implements ∨
    rel.type = RelationshipType.references ∨
    rel.type = RelationshipType.relatedTo := by
  simp only [pairRels, List.mem_append] at h
  rcases h with (h | h) | h
  · split_ifs at h with h1 h2
    · rw [List.mem_singleton] at h
      subst h
      exact Or.inl rfl
    all_goals simp at h
  · split_ifs at h with h1 h2
    · rw [List.mem_singleton] at h
      subst h
      exact Or.inr (Or.inl rfl)
    all_goals simp at h
  · split_ifs at h with h1 h2
    · rw [List.mem_singleton] at h
      subst h
      exact Or.inr (Or.inr rfl)
    all_goals simp at h

/-- C2 amended: the relationships returned by `extractFromChat` are only
IMPLEMENTS, REFERENCES and RELATED_TO edges — never an Evolution-family
EVOLVES_TO edge, for any inputs whatsoever.  The Evolution family lives in
`RelationshipDetector.detectEvolution`, which `extract_context` instantiates
but never invokes. -/
theorem extractFromChat_no_evolvesTo (maxContextTokens : Nat)
    (codeContexts decisions requirements errors discussions : List ContextNode)
    (content : String) (rel : Relationship)
    (hrel : rel ∈ (extractFromChat maxContextTokens codeContexts decisions
      requirements errors discussions content).relationships) :
    rel.type ≠ RelationshipType.evolvesTo ∧
    (rel.type = RelationshipType.implements ∨
     rel.type = RelationshipType.references ∨
     rel.type = RelationshipType.relatedTo) := by
  simp only [extractFromChat, detectRelationships] at hrel
  rw [List.mem_flatMap] at hrel
  obtain ⟨p, _, hmem⟩ := hrel
  have htypes := pairRels_type p.1 p.2 content rel hmem
  refine ⟨?_, htypes⟩
  rcases htypes with h | h | h <;> simp [h]

/-- The full relationship output of extraction on the C2 scenario pair: one
RELATED_TO edge (keyword Jaccard 5/7 > 0.7) and nothing else. -/
theorem c2_relationships_eq :
    (extractFromChat 4000 [c2first, c2second] [] [] [] [] "").relationships =
      [{ fromId := "c2a", toId := "c2b", type := RelationshipType.relatedTo,
         similarity := some ((5 : ℚ)/7), timeDelta := none }] := by
  have hsim : calculateSimilarity c2firstContent c2secondContent = (5 : ℚ)/7 := by
    simp only [calculateSimilarity]
    rw [show ((extractKeywords c2firstContent).filter
          (fun x => (extractKeywords c2secondContent).contains x)).length = 5 from
        by decide]
    rw [show ((extractKeywords c2firstContent ++
          extractKeywords c2secondContent).dedup).length = 7 from by decide]
    norm_num
  simp only [extractFromChat, detectRelationships, offDiagPairs,
    List.cons_append, List.nil_append, List.append_nil, List.map_cons,
    List.map_nil, List.flatMap_cons, List.flatMap_nil]
  simp [pairRels, summarizeIfNeeded_contextType, scoreContext_contextType,
    summarizeIfNeeded_content, scoreContext_content, summarizeIfNeeded_id,
    scoreContext_id,
    show c2first.contextType = ContextType.code from rfl,
    show c2second.contextType = ContextType.code from rfl,
    show c2first.content = c2firstContent from rfl,
    show c2second.content = c2secondContent from rfl,
    show c2first.id = "c2a" from rfl,
    show c2second.id = "c2b" from rfl,
    hsim, eq_true (show ((5 : ℚ)/7 > 0.7) from by norm_num)]

/-- C2 counterexample: two consecutive code items with timestamps one hour
apart whose function-name sets overlap at 4/5 > 0.5 (the detector's
code-evolution test), yet `extractFromChat` emits no EVOLVES_TO edge at all
— its relationship detection computes only IMPLEMENTS / REFERENCES /
RELATED_TO, and it does produce a RELATED_TO edge here. -/
theorem extractFromChat_no_evolution_on_scenario :
    c2first.contextType = ContextType.code ∧
    c2second.contextType = ContextType.code ∧
    c2second.timestamp - c2first.timestamp = 3600000 ∧
    setOverlap c2firstFunctionNames c2secondFunctionNames > 0.5 ∧
    ((extractFromChat 4000 [c2first, c2second] [] [] [] [] "").relationships.filter
      (fun rel => rel.type = RelationshipType.evolvesTo)) = [] ∧
    (extractFromChat 4000 [c2first, c2second] [] [] [] [] "").relationships ≠
      [] := by
  refine ⟨rfl, rfl, by decide, ?_, ?_, ?_⟩
  · unfold setOverlap
    rw [if_neg (by decide)]
    rw [show ((c2firstFunctionNames.filter
          (fun x => c2secondFunctionNames.contains x)).length) = 4 from by decide]
    rw [show (min c2firstFunctionNames.length c2secondFunctionNames.length) = 5 from
      by decide]
    norm_num
  · rw [c2_relationships_eq]
    simp
  · rw [c2_relationships_eq]
    simp

/-- Witness for the C2 amended theorem at the scenario's RELATED_TO edge. -/
theorem extractFromChat_no_evolvesTo_witness :
    ({ fromId := "c2a", toId := "c2b", type := RelationshipType.relatedTo,
       similarity := some ((5 : ℚ)/7), timeDelta := none } : Relationship).type ≠
      RelationshipType.evolvesTo ∧
    (({ fromId := "c2a", toId := "c2b", type := RelationshipType.relatedTo,
        similarity := some ((5 : ℚ)/7), timeDelta := none } : Relationship).type =
        RelationshipType.implements ∨
     ({ fromId := "c2a", toId := "c2b", type := RelationshipType.relatedTo,
        similarity := some ((5 : ℚ)/7), timeDelta := none } : Relationship).type =
        RelationshipType.references ∨
     ({ fromId := "c2a", toId := "c2b", type := RelationshipType.relatedTo,
        similarity := some ((5 : ℚ)/7), timeDelta := none } : Relationship).type =
        RelationshipType.relatedTo) :=
  extractFromChat_no_evolvesTo 4000 [c2first, c2second] [] [] [] [] "" _
    (by rw [c2_relationships_eq]; exact List.mem_singleton_self _)

end ContextBridge

